import Mathlib

/-
Shallow embedding of `src/apps/node/app/src-tauri/src/commands/staking.rs`.

Machine integers (`U256`, addresses) are modelled as `Nat`; `uint256` values
returned by contract queries are below `2 ^ 256` on chain, and the only
arithmetic performed on them here is a single accumulation, so no modular
reduction can occur.  External collaborators (the `url` parser, the alloy
provider builder, the contract RPC bindings, and the config persistence) are
modelled as an explicit `External` record of oracles; the network calls a
command performs are returned as an explicit trace.  Error strings produced by
external libraries whose content no theorem inspects are abstracted to fixed
placeholder text after the same `format!` prefix used by the source.
-/

namespace Staking

/-- Value of a hexadecimal digit character, if it is one. -/
def hexDigitVal (c : Char) : Option Nat :=
  if 48 ≤ c.toNat ∧ c.toNat ≤ 57 then some (c.toNat - 48)
  else if 97 ≤ c.toNat ∧ c.toNat ≤ 102 then some (c.toNat - 87)
  else if 65 ≤ c.toNat ∧ c.toNat ≤ 70 then some (c.toNat - 55)
  else none

/-- Value of a digit character in the given base. -/
def digitVal (base : Nat) (c : Char) : Option Nat :=
  match hexDigitVal c with
  | some d => if d < base then some d else none
  | none => none

/-- Left-to-right accumulation of a digit string. -/
def parseDigitsAux (base : Nat) : List Char → Nat → Option Nat
  | [], acc => some acc
  | c :: cs, acc =>
    match digitVal base c with
    | some d => parseDigitsAux base cs (acc * base + d)
    | none => none

/-- Parse a non-empty digit string in the given base. -/
def parseDigits (base : Nat) : List Char → Option Nat
  | [] => none
  | c :: cs => parseDigitsAux base (c :: cs) 0

/-- Embedding of `U256::from_str` (ruint): radix prefix detection (`0x`, `0b`,
`0o`, otherwise decimal), digit parsing, and the 256-bit overflow bound. -/
def parseU256 (s : String) : Option Nat :=
  let p : Nat × List Char :=
    match s.data with
    | '0' :: 'x' :: rest => (16, rest)
    | '0' :: 'b' :: rest => (2, rest)
    | '0' :: 'o' :: rest => (8, rest)
    | l => (10, l)
  match parseDigits p.fst p.snd with
  | some v => if v < 2 ^ 256 then some v else none
  | none => none

/-- Embedding of `Address::from_str`: optional `0x` prefix followed by exactly
40 hexadecimal digits. -/
def parseAddress (s : String) : Option Nat :=
  let l : List Char :=
    match s.data with
    | '0' :: 'x' :: rest => rest
    | l => l
  if l.length = 40 then parseDigits 16 l else none

/-- Read back a decimal amount string (the inverse of `U256` display). -/
def natOfDecimal (s : String) : Option Nat :=
  parseDigits 10 s.data

/-- Embedding of `format!("{:?}", tx_hash)` for a `B256` transaction hash:
`0x` followed by 64 lowercase hex digits. -/
def formatB256 (n : Nat) : String :=
  let ds := Nat.toDigits 16 (n % 2 ^ 256)
  ⟨'0' :: 'x' :: (List.replicate (64 - ds.length) '0' ++ ds)⟩

structure ServiceStakeInfo where
  service_id : String
  service_name : String
  staked_wei : String
  staked_usd : Float
  pending_rewards_wei : String
  stake_token : String
  min_stake_wei : String

structure StakingInfo where
  total_staked_wei : String
  total_staked_usd : Float
  staked_by_service : List ServiceStakeInfo
  pending_rewards_wei : String
  pending_rewards_usd : Float
  can_unstake : Bool
  unstake_cooldown_seconds : Nat
  auto_claim_enabled : Bool
  next_auto_claim_timestamp : Option Nat

structure StakeRequest where
  service_id : String
  amount_wei : String
  token_address : Option String

structure UnstakeRequest where
  service_id : String
  amount_wei : String

structure StakeResult where
  success : Bool
  tx_hash : Option String
  new_stake_wei : String
  error : Option String

structure ClaimResult where
  success : Bool
  tx_hash : Option String
  amount_claimed_wei : String
  error : Option String

/-- The signing capability held by the wallet manager; its contents are
irrelevant to the control flow modelled here. -/
structure Signer where
  key : Nat

/-- The wallet manager collaborator: `address()` and `get_signer()`. -/
structure WalletManager where
  address : Option String
  signer : Option Signer

structure EarningsConfig where
  auto_claim : Bool
  auto_claim_threshold_wei : String
  auto_claim_interval_hours : Nat

structure NetworkConfig where
  rpc_url : String

structure Config where
  earnings : EarningsConfig
  network : NetworkConfig

/-- The state behind `state.inner` (the fields this module reads). -/
structure AppStateInner where
  wallet_manager : Option WalletManager
  config : Config

/-- Return value of `IComputeStaking.getStake`. -/
structure GetStakeRet where
  amount : Nat
  stakeType : Nat
  stakedAt : Nat

/-- A network interaction performed by a command, recorded as a trace. -/
inductive NetCall where
  | getStakeCall (contract staker : Nat)
  | pendingRewardsCall (contract staker : Nat)
  | sendStakeTx (contract value : Nat)
  | sendUnstakeTx (contract : Nat)
  | sendClaimTx (contract : Nat)
deriving DecidableEq

/-- Oracles for the external collaborators: URL parsing, provider
construction, the contract call bindings (`none`/`.error` models the `Err`
case of the corresponding Rust call), and config persistence. -/
structure External where
  parseUrl : String → Except String Unit
  buildProviderRead : String → Except String Unit
  buildProviderWrite : String → Except String Unit
  getStake : Nat → Nat → Option GetStakeRet
  pendingRewards : Nat → Nat → Option Nat
  sendStake : Nat → Nat → Except String Nat
  sendUnstake : Nat → Except String Nat
  sendClaim : Nat → Except String Nat
  saveConfig : Config → Except String Unit

/-- `Address::from_str("0x0000000000000000000000000000000000000001")`. -/
def compute_staking_address : Nat :=
  (parseAddress "0x0000000000000000000000000000000000000001").getD 0

/-- The `ServiceStakeInfo` literal pushed by `get_staking_info`. -/
def computeServicePosition (amount : Nat) : ServiceStakeInfo :=
  { service_id := "compute"
    service_name := "Compute Provider"
    staked_wei := Nat.repr amount
    staked_usd := 0.0
    pending_rewards_wei := "0"
    stake_token := "ETH"
    min_stake_wei := "100000000000000000" }

/-- The `ServiceStakeInfo` literal pushed by `get_pending_rewards`. -/
def pendingRewardsPosition (p : Nat) : ServiceStakeInfo :=
  { service_id := "compute"
    service_name := "Compute Provider"
    staked_wei := "0"
    staked_usd := 0.0
    pending_rewards_wei := Nat.repr p
    stake_token := "ETH"
    min_stake_wei := "100000000000000000" }

/-- Value of `total_staked` after the `if let Ok(stake_result)` block of
`get_staking_info`: the queried amount when the stake query succeeds with a
positive amount, and the initial `U256::ZERO` otherwise. -/
def stakeTotalAfterQuery : Option GetStakeRet → Nat
  | some r => if 0 < r.amount then r.amount else 0
  | none => 0

/-- Value of `staked_by_service` after the same block: the compute position
is pushed exactly when the stake query succeeds with a positive amount. -/
def positionsAfterQuery : Option GetStakeRet → List ServiceStakeInfo
  | some r => if 0 < r.amount then [computeServicePosition r.amount] else []
  | none => []

/-- Value of `total_pending` after the `if let Ok(pending)` block of
`get_staking_info`. -/
def pendingTotalAfterQuery : Option Nat → Nat
  | some p => p
  | none => 0

/-- Value of `results` in `get_pending_rewards`: the compute position is
pushed exactly when the pending-rewards query succeeds with a positive
amount. -/
def rewardPositionsAfterQuery : Option Nat → List ServiceStakeInfo
  | some p => if 0 < p then [pendingRewardsPosition p] else []
  | none => []

/-- Embedding of the `get_staking_info` command. -/
def get_staking_info (st : AppStateInner) (ext : External) :
    Except String StakingInfo × List NetCall :=
  match st.wallet_manager with
  | none =>
    (.ok { total_staked_wei := "0"
           total_staked_usd := 0.0
           staked_by_service := []
           pending_rewards_wei := "0"
           pending_rewards_usd := 0.0
           can_unstake := false
           unstake_cooldown_seconds := 0
           auto_claim_enabled := st.config.earnings.auto_claim
           next_auto_claim_timestamp := none }, [])
  | some wm =>
    let rpc_url := st.config.network.rpc_url
    match wm.address with
    | none => (.error "Wallet address not available", [])
    | some wallet_address =>
      match parseAddress wallet_address with
      | none => (.error "Invalid address: invalid address string", [])
      | some address =>
        match ext.parseUrl rpc_url with
        | .error e => (.error ("Invalid RPC URL: " ++ e), [])
        | .ok _ =>
          match ext.buildProviderRead rpc_url with
          | .error e => (.error ("Failed to create provider: " ++ e), [])
          | .ok _ =>
            let total_staked :=
              stakeTotalAfterQuery (ext.getStake compute_staking_address address)
            let staked_by_service :=
              positionsAfterQuery (ext.getStake compute_staking_address address)
            let total_pending :=
              pendingTotalAfterQuery (ext.pendingRewards compute_staking_address address)
            (.ok { total_staked_wei := Nat.repr total_staked
                   total_staked_usd := 0.0
                   staked_by_service := staked_by_service
                   pending_rewards_wei := Nat.repr total_pending
                   pending_rewards_usd := 0.0
                   can_unstake := decide (0 < total_staked)
                   unstake_cooldown_seconds := 0
                   auto_claim_enabled := st.config.earnings.auto_claim
                   next_auto_claim_timestamp := none },
             [NetCall.getStakeCall compute_staking_address address,
              NetCall.pendingRewardsCall compute_staking_address address])

/-- Embedding of the `stake` command. -/
def stake (st : AppStateInner) (ext : External) (request : StakeRequest) :
    Except String StakeResult × List NetCall :=
  match st.wallet_manager with
  | none => (.error "Wallet not connected", [])
  | some wm =>
    match parseU256 request.amount_wei with
    | none => (.error "Invalid amount: invalid digit or overflow", [])
    | some amount =>
      let rpc_url := st.config.network.rpc_url
      match wm.signer with
      | none => (.error "Wallet not initialized", [])
      | some _ =>
        match ext.parseUrl rpc_url with
        | .error e => (.error ("Invalid RPC URL: " ++ e), [])
        | .ok _ =>
          match ext.buildProviderWrite rpc_url with
          | .error e => (.error ("Failed to create provider: " ++ e), [])
          | .ok _ =>
            match ext.sendStake compute_staking_address amount with
            | .error e =>
              (.error ("Failed to send stake transaction: " ++ e),
               [NetCall.sendStakeTx compute_staking_address amount])
            | .ok txh =>
              (.ok { success := true
                     tx_hash := some (formatB256 txh)
                     new_stake_wei := request.amount_wei
                     error := none },
               [NetCall.sendStakeTx compute_staking_address amount])

/-- Embedding of the `unstake` command (the request amount is unused by the
source, as `_request`). -/
def unstake (st : AppStateInner) (ext : External) (_request : UnstakeRequest) :
    Except String StakeResult × List NetCall :=
  match st.wallet_manager with
  | none => (.error "Wallet not connected", [])
  | some wm =>
    let rpc_url := st.config.network.rpc_url
    match wm.signer with
    | none => (.error "Wallet not initialized", [])
    | some _ =>
      match ext.parseUrl rpc_url with
      | .error e => (.error ("Invalid RPC URL: " ++ e), [])
      | .ok _ =>
        match ext.buildProviderWrite rpc_url with
        | .error e => (.error ("Failed to create provider: " ++ e), [])
        | .ok _ =>
          match ext.sendUnstake compute_staking_address with
          | .error e =>
            (.error ("Failed to send unstake transaction: " ++ e),
             [NetCall.sendUnstakeTx compute_staking_address])
          | .ok txh =>
            (.ok { success := true
                   tx_hash := some (formatB256 txh)
                   new_stake_wei := "0"
                   error := none },
             [NetCall.sendUnstakeTx compute_staking_address])

/-- Embedding of the `claim_rewards` command (the service id is unused by the
source, as `_service_id`). -/
def claim_rewards (st : AppStateInner) (ext : External)
    (_service_id : Option String) : Except String ClaimResult × List NetCall :=
  match st.wallet_manager with
  | none => (.error "Wallet not connected", [])
  | some wm =>
    let rpc_url := st.config.network.rpc_url
    match wm.signer with
    | none => (.error "Wallet not initialized", [])
    | some _ =>
      match ext.parseUrl rpc_url with
      | .error e => (.error ("Invalid RPC URL: " ++ e), [])
      | .ok _ =>
        match ext.buildProviderWrite rpc_url with
        | .error e => (.error ("Failed to create provider: " ++ e), [])
        | .ok _ =>
          match ext.sendClaim compute_staking_address with
          | .error e =>
            (.error ("Failed to claim rewards: " ++ e),
             [NetCall.sendClaimTx compute_staking_address])
          | .ok txh =>
            (.ok { success := true
                   tx_hash := some (formatB256 txh)
                   amount_claimed_wei := "0"
                   error := none },
             [NetCall.sendClaimTx compute_staking_address])

/-- Embedding of the `enable_auto_claim` command; the returned state is the
in-memory state after the command (the write guard's final contents). -/
def enable_auto_claim (st : AppStateInner) (ext : External) (enabled : Bool)
    (threshold_wei : Option String) (interval_hours : Option Nat) :
    AppStateInner × Except String Unit :=
  let e1 := { st.config.earnings with auto_claim := enabled }
  let e2 :=
    match threshold_wei with
    | some threshold => { e1 with auto_claim_threshold_wei := threshold }
    | none => e1
  let e3 :=
    match interval_hours with
    | some interval => { e2 with auto_claim_interval_hours := interval }
    | none => e2
  let cfg := { st.config with earnings := e3 }
  ({ st with config := cfg }, ext.saveConfig cfg)

/-- Embedding of the `get_pending_rewards` command. -/
def get_pending_rewards (st : AppStateInner) (ext : External) :
    Except String (List ServiceStakeInfo) × List NetCall :=
  match st.wallet_manager with
  | none => (.ok [], [])
  | some wm =>
    let rpc_url := st.config.network.rpc_url
    match wm.address with
    | none => (.error "Wallet address not available", [])
    | some wallet_address =>
      match parseAddress wallet_address with
      | none => (.error "Invalid address: invalid address string", [])
      | some address =>
        match ext.parseUrl rpc_url with
        | .error e => (.error ("Invalid RPC URL: " ++ e), [])
        | .ok _ =>
          match ext.buildProviderRead rpc_url with
          | .error e => (.error ("Failed to create provider: " ++ e), [])
          | .ok _ =>
            let results :=
              rewardPositionsAfterQuery (ext.pendingRewards compute_staking_address address)
            (.ok results,
             [NetCall.pendingRewardsCall compute_staking_address address])

/-- Sum of the staked amounts carried by a list of positions. -/
def positionsStakedSum (l : List ServiceStakeInfo) : Nat :=
  (l.map (fun s => (natOfDecimal s.staked_wei).getD 0)).sum

/-- Sum of the pending-reward amounts carried by a list of positions. -/
def positionsPendingSum (l : List ServiceStakeInfo) : Nat :=
  (l.map (fun s => (natOfDecimal s.pending_rewards_wei).getD 0)).sum

/-- Whether an `Except` value is the success case. -/
def exceptIsOk {ε α : Type} : Except ε α → Bool
  | .ok _ => true
  | .error _ => false

/-- An environment where URL parsing and provider construction succeed, every
contract query fails, and every transaction send fails. -/
def baseExt : External :=
  { parseUrl := fun _ => .ok ()
    buildProviderRead := fun _ => .ok ()
    buildProviderWrite := fun _ => .ok ()
    getStake := fun _ _ => none
    pendingRewards := fun _ _ => none
    sendStake := fun _ _ => .error "no network"
    sendUnstake := fun _ => .error "no network"
    sendClaim := fun _ => .error "no network"
    saveConfig := fun _ => .ok () }

/-- Queries succeed: stake 5 wei, pending rewards 7 wei. -/
def extStake5Pend7 : External :=
  { baseExt with
    getStake := fun _ _ => some { amount := 5, stakeType := 0, stakedAt := 0 }
    pendingRewards := fun _ _ => some 7 }

/-- Queries succeed: stake 0 wei, pending rewards 7 wei. -/
def extStake0Pend7 : External :=
  { baseExt with
    getStake := fun _ _ => some { amount := 0, stakeType := 0, stakedAt := 0 }
    pendingRewards := fun _ _ => some 7 }

/-- The stake query fails while the pending-rewards query returns 7 wei. -/
def extStakeFailPend7 : External :=
  { baseExt with pendingRewards := fun _ _ => some 7 }

/-- Transaction sends succeed with hash `0xcafe`. -/
def extSendOk : External :=
  { baseExt with
    sendStake := fun _ _ => .ok 51966
    sendUnstake := fun _ => .ok 51966
    sendClaim := fun _ => .ok 51966 }

/-- Config persistence fails. -/
def extSaveFail : External :=
  { baseExt with saveConfig := fun _ => .error "disk full" }

def sampleConfig : Config :=
  { earnings :=
      { auto_claim := true
        auto_claim_threshold_wei := "500"
        auto_claim_interval_hours := 6 }
    network := { rpc_url := "http://localhost:8545" } }

def addr2String : String := "0x0000000000000000000000000000000000000002"

def sampleWallet : WalletManager :=
  { address := some addr2String, signer := some { key := 1 } }

def walletNoSigner : WalletManager :=
  { address := some addr2String, signer := none }

def walletNoAddress : WalletManager :=
  { address := none, signer := some { key := 1 } }

def connectedState : AppStateInner :=
  { wallet_manager := some sampleWallet, config := sampleConfig }

def noSignerState : AppStateInner :=
  { wallet_manager := some walletNoSigner, config := sampleConfig }

def noAddressState : AppStateInner :=
  { wallet_manager := some walletNoAddress, config := sampleConfig }

def disconnectedState : AppStateInner :=
  { wallet_manager := none, config := sampleConfig }

def sampleStakeRequest : StakeRequest :=
  { service_id := "compute", amount_wei := "1000000000000000000", token_address := none }

def badAmountStakeRequest : StakeRequest :=
  { service_id := "compute", amount_wei := "not-a-number", token_address := none }

def sampleUnstakeRequest : UnstakeRequest :=
  { service_id := "compute", amount_wei := "0" }

/-- The summary `get_staking_info` yields at `connectedState` with
`extStake5Pend7`: stake 5 and pending 7 on chain, yet the single returned
position carries `pending_rewards_wei = "0"`. -/
def infoStake5Pend7 : StakingInfo :=
  { total_staked_wei := "5"
    total_staked_usd := 0.0
    staked_by_service := [computeServicePosition 5]
    pending_rewards_wei := "7"
    pending_rewards_usd := 0.0
    can_unstake := true
    unstake_cooldown_seconds := 0
    auto_claim_enabled := true
    next_auto_claim_timestamp := none }

end Staking

namespace Staking

lemma digitVal_digitChar : ∀ d < 10, digitVal 10 (Nat.digitChar d) = some d := by decide

lemma toDigitsCore_append (b f : Nat) :
    ∀ (n : Nat) (ds : List Char),
      Nat.toDigitsCore b f n ds = Nat.toDigitsCore b f n [] ++ ds := by
  induction f with
  | zero => intro n ds; simp [Nat.toDigitsCore]
  | succ f ih =>
    intro n ds
    simp only [Nat.toDigitsCore]
    by_cases h : n / b = 0
    · simp [h]
    · simp only [h, if_false]
      rw [ih (n / b) (Nat.digitChar (n % b) :: ds), ih (n / b) [Nat.digitChar (n % b)]]
      simp

lemma parseDigitsAux_append (b : Nat) :
    ∀ (xs ys : List Char) (acc : Nat),
      parseDigitsAux b (xs ++ ys) acc =
        match parseDigitsAux b xs acc with
        | some a => parseDigitsAux b ys a
        | none => none := by
  intro xs
  induction xs with
  | nil => intro ys acc; rfl
  | cons c cs ih =>
    intro ys acc
    simp only [List.cons_append, parseDigitsAux]
    cases digitVal b c with
    | none => rfl
    | some d => exact ih ys (acc * b + d)

lemma parse_toDigitsCore :
    ∀ (f n : Nat), n < f → ∀ acc,
      parseDigitsAux 10 (Nat.toDigitsCore 10 f n []) acc =
        some (acc * 10 ^ (Nat.toDigitsCore 10 f n []).length + n) := by
  intro f
  induction f with
  | zero => intro n hn; omega
  | succ f ih =>
    intro n hn acc
    simp only [Nat.toDigitsCore]
    by_cases h : n / 10 = 0
    · have hlt : n < 10 := by omega
      simp only [h, if_true]
      have hd := digitVal_digitChar n hlt
      simp [parseDigitsAux, Nat.mod_eq_of_lt hlt, hd]
    · simp only [h, if_false]
      rw [toDigitsCore_append 10 f (n / 10) [Nat.digitChar (n % 10)]]
      have hrec : n / 10 < f := by
        have h1 : n / 10 < n := Nat.div_lt_self (by omega) (by omega)
        omega
      rw [parseDigitsAux_append]
      rw [ih (n / 10) hrec acc]
      have hd := digitVal_digitChar (n % 10) (Nat.mod_lt n (by omega))
      simp only [parseDigitsAux, hd]
      have hdm : 10 * (n / 10) + n % 10 = n := Nat.div_add_mod n 10
      simp only [List.length_append, List.length_cons, List.length_nil]
      set L := (Nat.toDigitsCore 10 f (n / 10) []).length with hL
      have hp : (10 : Nat) ^ (L + 1) = 10 ^ L * 10 := pow_succ 10 L
      congr 1
      rw [hp]
      ring_nf
      omega

lemma toDigitsCore_ne_nil (f n : Nat) (hf : 0 < f) :
    Nat.toDigitsCore 10 f n [] ≠ [] := by
  match f with
  | 0 => omega
  | f + 1 =>
    simp only [Nat.toDigitsCore]
    by_cases h : n / 10 = 0
    · simp [h]
    · simp only [h, if_false]
      rw [toDigitsCore_append]
      simp

lemma natOfDecimal_repr (n : Nat) : natOfDecimal (Nat.repr n) = some n := by
  unfold natOfDecimal Nat.repr
  have hdata : (Nat.toDigits 10 n).asString.data = Nat.toDigits 10 n := rfl
  rw [hdata]
  unfold Nat.toDigits
  have hne := toDigitsCore_ne_nil (n + 1) n (by omega)
  have hp := parse_toDigitsCore (n + 1) n (by omega) 0
  cases hh : Nat.toDigitsCore 10 (n + 1) n [] with
  | nil => exact absurd hh hne
  | cons c cs =>
    rw [hh] at hp
    simp only [parseDigits]
    rw [hp]
    simp

end Staking

namespace Staking

/-- C3: when no wallet manager is present, `get_staking_info` succeeds with
zero totals, an empty position list, `can_unstake = false`, the persisted
`auto_claim` flag, and performs no network call. -/
theorem c3_disconnected_summary (st : AppStateInner) (ext : External)
    (h : st.wallet_manager = none) :
    (get_staking_info st ext).fst = .ok
      { total_staked_wei := "0"
        total_staked_usd := 0.0
        staked_by_service := []
        pending_rewards_wei := "0"
        pending_rewards_usd := 0.0
        can_unstake := false
        unstake_cooldown_seconds := 0
        auto_claim_enabled := st.config.earnings.auto_claim
        next_auto_claim_timestamp := none }
    ∧ (get_staking_info st ext).snd = [] := by
  rw [get_staking_info, h]
  exact ⟨rfl, rfl⟩

/-- C3 witness: the disconnected view at a concrete state whose persisted
`auto_claim` flag is `true`. -/
theorem c3_witness :
    (get_staking_info disconnectedState baseExt).fst = .ok
      { total_staked_wei := "0"
        total_staked_usd := 0.0
        staked_by_service := []
        pending_rewards_wei := "0"
        pending_rewards_usd := 0.0
        can_unstake := false
        unstake_cooldown_seconds := 0
        auto_claim_enabled := true
        next_auto_claim_timestamp := none }
    ∧ (get_staking_info disconnectedState baseExt).snd = [] :=
  c3_disconnected_summary disconnectedState baseExt rfl

/-- C10: with a wallet manager present but no current address, both
`get_staking_info` and `get_pending_rewards` fail with
"Wallet address not available"; the disconnected view arises only when the
wallet manager itself is absent. -/
theorem c10_wallet_address_unavailable (st : AppStateInner) (ext : External)
    (wm : WalletManager) (hw : st.wallet_manager = some wm)
    (ha : wm.address = none) :
    (get_staking_info st ext).fst = .error "Wallet address not available"
    ∧ (get_pending_rewards st ext).fst = .error "Wallet address not available"
    ∧ ∀ st2 : AppStateInner, st2.wallet_manager = none →
        exceptIsOk (get_staking_info st2 ext).fst = true
        ∧ (get_pending_rewards st2 ext).fst = .ok [] := by
  refine ⟨?_, ?_, ?_⟩
  · simp [get_staking_info, hw, ha]
  · simp [get_pending_rewards, hw, ha]
  · intro st2 h2
    constructor
    · simp [get_staking_info, h2, exceptIsOk]
    · simp [get_pending_rewards, h2]

/-- C10 witness: a concrete state whose wallet manager reports no address. -/
theorem c10_witness :
    (get_staking_info noAddressState baseExt).fst =
      .error "Wallet address not available"
    ∧ (get_pending_rewards noAddressState baseExt).fst =
      .error "Wallet address not available"
    ∧ ∀ st2 : AppStateInner, st2.wallet_manager = none →
        exceptIsOk (get_staking_info st2 baseExt).fst = true
        ∧ (get_pending_rewards st2 baseExt).fst = .ok [] :=
  c10_wallet_address_unavailable noAddressState baseExt walletNoAddress rfl rfl

end Staking

namespace Staking

/-- Evaluation of `get_staking_info` on the fully-resolved path: wallet
present, address available and well-formed, URL and provider fine. -/
lemma get_staking_info_online (st : AppStateInner) (ext : External)
    (wm : WalletManager) (wa : String) (a : Nat)
    (hw : st.wallet_manager = some wm) (ha : wm.address = some wa)
    (hp : parseAddress wa = some a)
    (hu : ext.parseUrl st.config.network.rpc_url = .ok ())
    (hb : ext.buildProviderRead st.config.network.rpc_url = .ok ()) :
    get_staking_info st ext =
      (.ok { total_staked_wei :=
               Nat.repr (stakeTotalAfterQuery (ext.getStake compute_staking_address a))
             total_staked_usd := 0.0
             staked_by_service :=
               positionsAfterQuery (ext.getStake compute_staking_address a)
             pending_rewards_wei :=
               Nat.repr (pendingTotalAfterQuery (ext.pendingRewards compute_staking_address a))
             pending_rewards_usd := 0.0
             can_unstake :=
               decide (0 < stakeTotalAfterQuery (ext.getStake compute_staking_address a))
             unstake_cooldown_seconds := 0
             auto_claim_enabled := st.config.earnings.auto_claim
             next_auto_claim_timestamp := none },
       [NetCall.getStakeCall compute_staking_address a,
        NetCall.pendingRewardsCall compute_staking_address a]) := by
  simp [get_staking_info, hw, ha, hp, hu, hb]

/-- Evaluation of `get_pending_rewards` on the fully-resolved path. -/
lemma get_pending_rewards_online (st : AppStateInner) (ext : External)
    (wm : WalletManager) (wa : String) (a : Nat)
    (hw : st.wallet_manager = some wm) (ha : wm.address = some wa)
    (hp : parseAddress wa = some a)
    (hu : ext.parseUrl st.config.network.rpc_url = .ok ())
    (hb : ext.buildProviderRead st.config.network.rpc_url = .ok ()) :
    get_pending_rewards st ext =
      (.ok (rewardPositionsAfterQuery (ext.pendingRewards compute_staking_address a)),
       [NetCall.pendingRewardsCall compute_staking_address a]) := by
  simp [get_pending_rewards, hw, ha, hp, hu, hb]

/-- C7: `enable_auto_claim` always applies the enabled flag, applies the
threshold and interval only when supplied (omitted fields keep their prior
values), and returns exactly the result of persisting the updated
configuration, so a persistence failure fails the operation. -/
theorem c7_enable_auto_claim_update (st : AppStateInner) (ext : External)
    (enabled : Bool) (thr : Option String) (iv : Option Nat) :
    (enable_auto_claim st ext enabled thr iv).fst.config.earnings.auto_claim = enabled
    ∧ (enable_auto_claim st ext enabled thr iv).fst.config.earnings.auto_claim_threshold_wei
        = thr.getD st.config.earnings.auto_claim_threshold_wei
    ∧ (enable_auto_claim st ext enabled thr iv).fst.config.earnings.auto_claim_interval_hours
        = iv.getD st.config.earnings.auto_claim_interval_hours
    ∧ (enable_auto_claim st ext enabled thr iv).snd
        = ext.saveConfig (enable_auto_claim st ext enabled thr iv).fst.config := by
  cases thr <;> cases iv <;> simp [enable_auto_claim]

/-- C9: `enable_auto_claim` is not atomic — when persistence fails the
command returns the failure while the returned in-memory configuration
already holds the newly applied values. -/
theorem c9_save_failure_keeps_mutation (st : AppStateInner) (ext : External)
    (enabled : Bool) (thr : Option String) (iv : Option Nat) (e : String)
    (hsave : (enable_auto_claim st ext enabled thr iv).snd = .error e) :
    exceptIsOk (enable_auto_claim st ext enabled thr iv).snd = false
    ∧ (enable_auto_claim st ext enabled thr iv).fst.config.earnings.auto_claim = enabled
    ∧ (enable_auto_claim st ext enabled thr iv).fst.config.earnings.auto_claim_threshold_wei
        = thr.getD st.config.earnings.auto_claim_threshold_wei
    ∧ (enable_auto_claim st ext enabled thr iv).fst.config.earnings.auto_claim_interval_hours
        = iv.getD st.config.earnings.auto_claim_interval_hours := by
  refine ⟨by rw [hsave]; rfl, ?_, ?_, ?_⟩ <;>
    cases thr <;> cases iv <;> simp [enable_auto_claim]

/-- C9 witness: persistence fails at a concrete state; the error is returned
while the in-memory configuration holds the new flag and threshold and the
untouched interval. -/
theorem c9_witness :
    exceptIsOk (enable_auto_claim connectedState extSaveFail false (some "999") none).snd = false
    ∧ (enable_auto_claim connectedState extSaveFail false (some "999") none).fst.config.earnings.auto_claim = false
    ∧ (enable_auto_claim connectedState extSaveFail false (some "999") none).fst.config.earnings.auto_claim_threshold_wei = "999"
    ∧ (enable_auto_claim connectedState extSaveFail false (some "999") none).fst.config.earnings.auto_claim_interval_hours = 6 :=
  c9_save_failure_keeps_mutation connectedState extSaveFail false (some "999") none "disk full" rfl

end Staking

namespace Staking

/-- C1 counterexample: at a connected state with on-chain stake 5 and pending
rewards 7, the summary's pending total is "7" while the sum of
`pending_rewards` over the returned positions renders as "0", so the claimed
pending summation fails on the code. -/
theorem c1_counterexample :
    Except.map (fun i => i.pending_rewards_wei)
      (get_staking_info connectedState extStake5Pend7).fst = .ok "7"
    ∧ Except.map (fun i => Nat.repr (positionsPendingSum i.staked_by_service))
      (get_staking_info connectedState extStake5Pend7).fst = .ok "0"
    ∧ ("7" : String) ≠ "0" :=
  ⟨rfl, rfl, by decide⟩

/-- C1 amended: for every successful output of `get_staking_info`,
`total_staked_wei` equals the exact sum of `staked_wei` over the returned
positions, while every returned position reports `pending_rewards_wei = "0"`
(so the pending total equals the positional sum only when it is zero). -/
theorem c1_totals_vs_position_sums (st : AppStateInner) (ext : External)
    (i : StakingInfo) (h : (get_staking_info st ext).fst = .ok i) :
    i.total_staked_wei = Nat.repr (positionsStakedSum i.staked_by_service)
    ∧ ∀ p ∈ i.staked_by_service, p.pending_rewards_wei = "0" := by
  cases hw : st.wallet_manager with
  | none =>
    simp [get_staking_info, hw] at h
    subst h
    constructor
    · show ("0" : String) = Nat.repr (positionsStakedSum [])
      rfl
    · simp
  | some wm =>
    cases ha : wm.address with
    | none => simp [get_staking_info, hw, ha] at h
    | some wa =>
      cases hp : parseAddress wa with
      | none => simp [get_staking_info, hw, ha, hp] at h
      | some a =>
        cases hu : ext.parseUrl st.config.network.rpc_url with
        | error e => simp [get_staking_info, hw, ha, hp, hu] at h
        | ok u =>
          cases hb : ext.buildProviderRead st.config.network.rpc_url with
          | error e => simp [get_staking_info, hw, ha, hp, hu, hb] at h
          | ok v =>
            cases u; cases v
            rw [get_staking_info_online st ext wm wa a hw ha hp hu hb] at h
            simp at h
            subst h
            cases hg : ext.getStake compute_staking_address a with
            | none =>
              exact ⟨rfl, by simp [positionsAfterQuery]⟩
            | some r =>
              by_cases h0 : 0 < r.amount
              · constructor
                · simp [stakeTotalAfterQuery, positionsAfterQuery, h0,
                        positionsStakedSum, computeServicePosition, natOfDecimal_repr]
                · simp [positionsAfterQuery, h0, computeServicePosition]
              · constructor
                · simp [stakeTotalAfterQuery, positionsAfterQuery, h0, positionsStakedSum]
                · simp [positionsAfterQuery, h0]

/-- C1 witness: the amended property evaluated at the concrete connected
state with stake 5 and pending 7. -/
theorem c1_witness :
    infoStake5Pend7.total_staked_wei
      = Nat.repr (positionsStakedSum infoStake5Pend7.staked_by_service)
    ∧ ∀ p ∈ infoStake5Pend7.staked_by_service, p.pending_rewards_wei = "0" :=
  c1_totals_vs_position_sums connectedState extStake5Pend7 infoStake5Pend7 rfl

/-- C2 counterexample: with on-chain stake 0 and pending rewards 7, the
pending amount is nonzero yet no position is appended, so "append when either
amount is nonzero" fails on the code. -/
theorem c2_counterexample :
    Except.map (fun i => i.staked_by_service.length)
      (get_staking_info connectedState extStake0Pend7).fst = .ok 0
    ∧ Except.map (fun i => i.pending_rewards_wei)
      (get_staking_info connectedState extStake0Pend7).fst = .ok "7"
    ∧ ("7" : String) ≠ "0" :=
  ⟨rfl, rfl, by decide⟩

/-- C2 amended: on the resolved path a position is appended exactly when the
stake query succeeds with a strictly positive staked amount; the
pending-rewards amount never affects inclusion. -/
theorem c2_position_inclusion (st : AppStateInner) (ext : External)
    (wm : WalletManager) (wa : String) (a : Nat)
    (hw : st.wallet_manager = some wm) (ha : wm.address = some wa)
    (hp : parseAddress wa = some a)
    (hu : ext.parseUrl st.config.network.rpc_url = .ok ())
    (hb : ext.buildProviderRead st.config.network.rpc_url = .ok ()) :
    Except.map (fun i => i.staked_by_service) (get_staking_info st ext).fst
      = .ok (positionsAfterQuery (ext.getStake compute_staking_address a))
    ∧ (positionsAfterQuery (ext.getStake compute_staking_address a) ≠ []
        ↔ ∃ r, ext.getStake compute_staking_address a = some r ∧ 0 < r.amount) := by
  constructor
  · rw [get_staking_info_online st ext wm wa a hw ha hp hu hb]
    rfl
  · cases hg : ext.getStake compute_staking_address a with
    | none => simp [positionsAfterQuery]
    | some r =>
      by_cases h0 : 0 < r.amount
      · simp [positionsAfterQuery, h0]
      · simp [positionsAfterQuery, h0]

/-- C2 witness: the amended inclusion criterion at the concrete connected
state with stake 5 and pending 7. -/
theorem c2_witness :
    Except.map (fun i => i.staked_by_service)
      (get_staking_info connectedState extStake5Pend7).fst
      = .ok (positionsAfterQuery (extStake5Pend7.getStake compute_staking_address 2))
    ∧ (positionsAfterQuery (extStake5Pend7.getStake compute_staking_address 2) ≠ []
        ↔ ∃ r, extStake5Pend7.getStake compute_staking_address 2 = some r
            ∧ 0 < r.amount) :=
  c2_position_inclusion connectedState extStake5Pend7 sampleWallet addr2String 2
    rfl rfl rfl rfl rfl

end Staking

namespace Staking

/-- C5: on the resolved path, `get_staking_info` succeeds whatever the
outcome of the two contract queries; a failed stake query contributes no
position and nothing to the staked total, a failed pending query contributes
zero, and each succeeding query's contribution is still included. -/
theorem c5_query_failures_nonfatal (st : AppStateInner) (ext : External)
    (wm : WalletManager) (wa : String) (a : Nat)
    (hw : st.wallet_manager = some wm) (ha : wm.address = some wa)
    (hp : parseAddress wa = some a)
    (hu : ext.parseUrl st.config.network.rpc_url = .ok ())
    (hb : ext.buildProviderRead st.config.network.rpc_url = .ok ()) :
    exceptIsOk (get_staking_info st ext).fst = true
    ∧ (ext.getStake compute_staking_address a = none →
        Except.map (fun i => (i.staked_by_service, i.total_staked_wei))
          (get_staking_info st ext).fst = .ok ([], "0"))
    ∧ (ext.pendingRewards compute_staking_address a = none →
        Except.map (fun i => i.pending_rewards_wei)
          (get_staking_info st ext).fst = .ok "0")
    ∧ (∀ p, ext.pendingRewards compute_staking_address a = some p →
        Except.map (fun i => i.pending_rewards_wei)
          (get_staking_info st ext).fst = .ok (Nat.repr p))
    ∧ (∀ r, ext.getStake compute_staking_address a = some r → 0 < r.amount →
        Except.map (fun i => i.staked_by_service)
          (get_staking_info st ext).fst
          = .ok [computeServicePosition r.amount]) := by
  rw [get_staking_info_online st ext wm wa a hw ha hp hu hb]
  refine ⟨rfl, ?_, ?_, ?_, ?_⟩
  · intro hg
    rw [hg]
    rfl
  · intro hq
    rw [hq]
    rfl
  · intro p hq
    rw [hq]
    rfl
  · intro r hg h0
    rw [hg]
    simp [Except.map, positionsAfterQuery, h0]

/-- C5 witness: with the stake query failing and the pending query returning
7, the summary still succeeds, omits the position, and includes the pending
contribution. -/
theorem c5_witness :
    exceptIsOk (get_staking_info connectedState extStakeFailPend7).fst = true
    ∧ (extStakeFailPend7.getStake compute_staking_address 2 = none →
        Except.map (fun i => (i.staked_by_service, i.total_staked_wei))
          (get_staking_info connectedState extStakeFailPend7).fst = .ok ([], "0"))
    ∧ (extStakeFailPend7.pendingRewards compute_staking_address 2 = none →
        Except.map (fun i => i.pending_rewards_wei)
          (get_staking_info connectedState extStakeFailPend7).fst = .ok "0")
    ∧ (∀ p, extStakeFailPend7.pendingRewards compute_staking_address 2 = some p →
        Except.map (fun i => i.pending_rewards_wei)
          (get_staking_info connectedState extStakeFailPend7).fst = .ok (Nat.repr p))
    ∧ (∀ r, extStakeFailPend7.getStake compute_staking_address 2 = some r →
        0 < r.amount →
        Except.map (fun i => i.staked_by_service)
          (get_staking_info connectedState extStakeFailPend7).fst
          = .ok [computeServicePosition r.amount]) :=
  c5_query_failures_nonfatal connectedState extStakeFailPend7 sampleWallet
    addr2String 2 rfl rfl rfl rfl rfl

/-- C8: on the resolved path, `get_pending_rewards` returns the compute
position exactly when the pending-rewards query succeeds with a strictly
positive amount, every returned position reports a zero staked amount, and a
query failure is non-fatal (empty list, not an error). -/
theorem c8_rewards_only_projection (st : AppStateInner) (ext : External)
    (wm : WalletManager) (wa : String) (a : Nat)
    (hw : st.wallet_manager = some wm) (ha : wm.address = some wa)
    (hp : parseAddress wa = some a)
    (hu : ext.parseUrl st.config.network.rpc_url = .ok ())
    (hb : ext.buildProviderRead st.config.network.rpc_url = .ok ()) :
    (get_pending_rewards st ext).fst
      = .ok (rewardPositionsAfterQuery (ext.pendingRewards compute_staking_address a))
    ∧ (rewardPositionsAfterQuery (ext.pendingRewards compute_staking_address a) ≠ []
        ↔ ∃ p, ext.pendingRewards compute_staking_address a = some p ∧ 0 < p)
    ∧ ∀ pos ∈ rewardPositionsAfterQuery (ext.pendingRewards compute_staking_address a),
        pos.staked_wei = "0" := by
  refine ⟨?_, ?_, ?_⟩
  · rw [get_pending_rewards_online st ext wm wa a hw ha hp hu hb]
  · cases hq : ext.pendingRewards compute_staking_address a with
    | none => simp [rewardPositionsAfterQuery]
    | some p =>
      by_cases h0 : 0 < p
      · simp [rewardPositionsAfterQuery, h0]
      · simp [rewardPositionsAfterQuery, h0]
  · intro pos hpos
    cases hq : ext.pendingRewards compute_staking_address a with
    | none =>
      rw [hq] at hpos
      simp [rewardPositionsAfterQuery] at hpos
    | some p =>
      rw [hq] at hpos
      by_cases h0 : 0 < p
      · simp [rewardPositionsAfterQuery, h0] at hpos
        rw [hpos]
        rfl
      · simp [rewardPositionsAfterQuery, h0] at hpos

/-- C8 witness: pending rewards 7 at the connected state yields exactly the
rewards-only position with a zero staked amount. -/
theorem c8_witness :
    (get_pending_rewards connectedState extStakeFailPend7).fst
      = .ok (rewardPositionsAfterQuery
          (extStakeFailPend7.pendingRewards compute_staking_address 2))
    ∧ (rewardPositionsAfterQuery
          (extStakeFailPend7.pendingRewards compute_staking_address 2) ≠ []
        ↔ ∃ p, extStakeFailPend7.pendingRewards compute_staking_address 2 = some p
            ∧ 0 < p)
    ∧ ∀ pos ∈ rewardPositionsAfterQuery
          (extStakeFailPend7.pendingRewards compute_staking_address 2),
        pos.staked_wei = "0" :=
  c8_rewards_only_projection connectedState extStakeFailPend7 sampleWallet
    addr2String 2 rfl rfl rfl rfl rfl

end Staking

namespace Staking

/-- The debug rendering of a transaction hash always starts with `0x`. -/
lemma formatB256_ne_empty (n : Nat) : formatB256 n ≠ "" := by
  intro he
  have hd : ('0' :: 'x' ::
      (List.replicate (64 - (Nat.toDigits 16 (n % 2 ^ 256)).length) '0'
        ++ Nat.toDigits 16 (n % 2 ^ 256))) = ([] : List Char) :=
    congrArg String.data he
  exact List.cons_ne_nil _ _ hd

/-- `stake` stops with an error and an empty trace on each precondition
failure. -/
lemma stake_precondition (st : AppStateInner) (ext : External)
    (reqS : StakeRequest)
    (h : st.wallet_manager = none
      ∨ (∀ wm, st.wallet_manager = some wm → wm.signer = none)
      ∨ parseU256 reqS.amount_wei = none
      ∨ exceptIsOk (ext.parseUrl st.config.network.rpc_url) = false) :
    exceptIsOk (stake st ext reqS).fst = false ∧ (stake st ext reqS).snd = [] := by
  cases hw : st.wallet_manager with
  | none => simp [stake, hw, exceptIsOk]
  | some wm =>
    rcases h with h | h | h | h
    · rw [hw] at h
      exact absurd h (by simp)
    · have hs := h wm hw
      cases hp : parseU256 reqS.amount_wei with
      | none => simp [stake, hw, hp, exceptIsOk]
      | some amt => simp [stake, hw, hp, hs, exceptIsOk]
    · simp [stake, hw, h, exceptIsOk]
    · cases hp : parseU256 reqS.amount_wei with
      | none => simp [stake, hw, hp, exceptIsOk]
      | some amt =>
        cases hsg : wm.signer with
        | none => simp [stake, hw, hp, hsg, exceptIsOk]
        | some s =>
          cases hu : ext.parseUrl st.config.network.rpc_url with
          | error e => simp [stake, hw, hp, hsg, hu, exceptIsOk]
          | ok u =>
            rw [hu] at h
            simp [exceptIsOk] at h

/-- `unstake` stops with an error and an empty trace on each precondition
failure. -/
lemma unstake_precondition (st : AppStateInner) (ext : External)
    (reqU : UnstakeRequest)
    (h : st.wallet_manager = none
      ∨ (∀ wm, st.wallet_manager = some wm → wm.signer = none)
      ∨ exceptIsOk (ext.parseUrl st.config.network.rpc_url) = false) :
    exceptIsOk (unstake st ext reqU).fst = false ∧ (unstake st ext reqU).snd = [] := by
  cases hw : st.wallet_manager with
  | none => simp [unstake, hw, exceptIsOk]
  | some wm =>
    rcases h with h | h | h
    · rw [hw] at h
      exact absurd h (by simp)
    · have hs := h wm hw
      simp [unstake, hw, hs, exceptIsOk]
    · cases hsg : wm.signer with
      | none => simp [unstake, hw, hsg, exceptIsOk]
      | some s =>
        cases hu : ext.parseUrl st.config.network.rpc_url with
        | error e => simp [unstake, hw, hsg, hu, exceptIsOk]
        | ok u =>
          rw [hu] at h
          simp [exceptIsOk] at h

/-- `claim_rewards` stops with an error and an empty trace on each
precondition failure. -/
lemma claim_rewards_precondition (st : AppStateInner) (ext : External)
    (svc : Option String)
    (h : st.wallet_manager = none
      ∨ (∀ wm, st.wallet_manager = some wm → wm.signer = none)
      ∨ exceptIsOk (ext.parseUrl st.config.network.rpc_url) = false) :
    exceptIsOk (claim_rewards st ext svc).fst = false
    ∧ (claim_rewards st ext svc).snd = [] := by
  cases hw : st.wallet_manager with
  | none => simp [claim_rewards, hw, exceptIsOk]
  | some wm =>
    rcases h with h | h | h
    · rw [hw] at h
      exact absurd h (by simp)
    · have hs := h wm hw
      simp [claim_rewards, hw, hs, exceptIsOk]
    · cases hsg : wm.signer with
      | none => simp [claim_rewards, hw, hsg, exceptIsOk]
      | some s =>
        cases hu : ext.parseUrl st.config.network.rpc_url with
        | error e => simp [claim_rewards, hw, hsg, hu, exceptIsOk]
        | ok u =>
          rw [hu] at h
          simp [exceptIsOk] at h

/-- C4: every precondition failure (no wallet, no signer, malformed amount
string for `stake`, malformed RPC URL) makes the transactional commands
return an error before performing any network call. -/
theorem c4_precondition_failures (st : AppStateInner) (ext : External)
    (reqS : StakeRequest) (reqU : UnstakeRequest) (svc : Option String) :
    ((st.wallet_manager = none
        ∨ (∀ wm, st.wallet_manager = some wm → wm.signer = none)
        ∨ parseU256 reqS.amount_wei = none
        ∨ exceptIsOk (ext.parseUrl st.config.network.rpc_url) = false) →
      exceptIsOk (stake st ext reqS).fst = false ∧ (stake st ext reqS).snd = [])
    ∧ ((st.wallet_manager = none
        ∨ (∀ wm, st.wallet_manager = some wm → wm.signer = none)
        ∨ exceptIsOk (ext.parseUrl st.config.network.rpc_url) = false) →
      exceptIsOk (unstake st ext reqU).fst = false ∧ (unstake st ext reqU).snd = [])
    ∧ ((st.wallet_manager = none
        ∨ (∀ wm, st.wallet_manager = some wm → wm.signer = none)
        ∨ exceptIsOk (ext.parseUrl st.config.network.rpc_url) = false) →
      exceptIsOk (claim_rewards st ext svc).fst = false
      ∧ (claim_rewards st ext svc).snd = []) :=
  ⟨stake_precondition st ext reqS,
   unstake_precondition st ext reqU,
   claim_rewards_precondition st ext svc⟩

/-- C4 witness: at a wallet with no signer, `stake` with the amount
"not-a-number" and the other two commands all fail without any network
call. -/
theorem c4_witness :
    (exceptIsOk (stake noSignerState baseExt badAmountStakeRequest).fst = false
      ∧ (stake noSignerState baseExt badAmountStakeRequest).snd = [])
    ∧ (exceptIsOk (unstake noSignerState baseExt sampleUnstakeRequest).fst = false
      ∧ (unstake noSignerState baseExt sampleUnstakeRequest).snd = [])
    ∧ (exceptIsOk (claim_rewards noSignerState baseExt none).fst = false
      ∧ (claim_rewards noSignerState baseExt none).snd = []) := by
  have hsig : ∀ wm, noSignerState.wallet_manager = some wm → wm.signer = none := by
    intro wm hwm
    have h2 : walletNoSigner = wm := Option.some.inj hwm
    rw [← h2]
    rfl
  have h := c4_precondition_failures noSignerState baseExt badAmountStakeRequest
    sampleUnstakeRequest none
  exact ⟨h.1 (Or.inr (Or.inr (Or.inl rfl))),
         h.2.1 (Or.inr (Or.inl hsig)),
         h.2.2 (Or.inr (Or.inl hsig))⟩

/-- C6: when all preconditions hold and the network accepts the transaction,
`stake` returns success with the formatted (non-empty) transaction hash and
echoes the requested amount as `new_stake_wei`, having performed exactly the
one send. -/
theorem c6_stake_success (st : AppStateInner) (ext : External)
    (req : StakeRequest) (wm : WalletManager) (s : Signer) (amount txh : Nat)
    (hw : st.wallet_manager = some wm) (hs : wm.signer = some s)
    (hp : parseU256 req.amount_wei = some amount)
    (hu : ext.parseUrl st.config.network.rpc_url = .ok ())
    (hb : ext.buildProviderWrite st.config.network.rpc_url = .ok ())
    (hsend : ext.sendStake compute_staking_address amount = .ok txh) :
    (stake st ext req).fst = .ok
      { success := true
        tx_hash := some (formatB256 txh)
        new_stake_wei := req.amount_wei
        error := none }
    ∧ formatB256 txh ≠ ""
    ∧ (stake st ext req).snd = [NetCall.sendStakeTx compute_staking_address amount] := by
  refine ⟨?_, formatB256_ne_empty txh, ?_⟩
  · simp [stake, hw, hs, hp, hu, hb, hsend]
  · simp [stake, hw, hs, hp, hu, hb, hsend]

/-- C6 witness: staking one ether at the connected state with an accepting
network echoes the requested amount and returns the non-empty hash of
`0xcafe`. -/
theorem c6_witness :
    (stake connectedState extSendOk sampleStakeRequest).fst = .ok
      { success := true
        tx_hash := some (formatB256 51966)
        new_stake_wei := sampleStakeRequest.amount_wei
        error := none }
    ∧ formatB256 51966 ≠ ""
    ∧ (stake connectedState extSendOk sampleStakeRequest).snd
      = [NetCall.sendStakeTx compute_staking_address 1000000000000000000] :=
  c6_stake_success connectedState extSendOk sampleStakeRequest sampleWallet
    { key := 1 } 1000000000000000000 51966 rfl rfl rfl rfl rfl rfl

end Staking
